import Mathlib

/-!
Verification of the `aps` bid adapter (`src/modules/apsBidAdapter.js`).

The adapter is shallowly embedded: JavaScript values that the adapter
inspects dynamically are modelled by the inductive type `JSVal`; objects
whose fields the adapter reads or deletes are modelled as structures with
`Option`-valued fields (`none` = the key is absent / `undefined`); code
that can `throw` is modelled in `Except JSVal`; the process-wide
`window._aps` telemetry structure is threaded explicitly as a state value.
External collaborators (the `ortbConverter` library's generic
`buildRequest` / `buildBidResponse` / `fromORTB`, the host `config`
object) are passed in as parameters or as fields of `Config`.
-/

set_option autoImplicit false

namespace Aps

/-- A dynamically typed JavaScript value, at the granularity the adapter
inspects: `null`, `undefined`, numbers (modelled as integers), strings,
booleans, `Error` objects (carrying their message) and other objects. -/
inductive JSVal where
  | vNull
  | vUndefined
  | vNum (n : Int)
  | vStr (s : String)
  | vBool (b : Bool)
  | vErr (msg : String)
  | vObj
  deriving DecidableEq, Repr

/-- JavaScript truthiness: `0`, `""`, `null`, `undefined` and `false` are
falsy; every other value (objects and `Error`s included) is truthy. -/
def truthy : JSVal → Bool
  | .vNull => false
  | .vUndefined => false
  | .vNum n => n != 0
  | .vStr s => s.length != 0
  | .vBool b => b
  | .vErr _ => true
  | .vObj => true

/-- Truthiness of an optional value (an absent key reads as `undefined`). -/
def truthyOpt : Option JSVal → Bool
  | none => false
  | some v => truthy v

/-- The whitespace characters recognised by JavaScript `String.prototype.trim`
(the ASCII ones; the adapter only ever trims account identifiers). -/
def jsIsWhitespace (c : Char) : Bool :=
  c = Char.ofNat 32 || c = Char.ofNat 9 || c = Char.ofNat 10 ||
  c = Char.ofNat 13 || c = Char.ofNat 11 || c = Char.ofNat 12

/-- Model of JavaScript `s.trim()`: strip whitespace from both ends. -/
def jsTrim (s : String) : String :=
  ⟨(((s.data.dropWhile jsIsWhitespace).reverse.dropWhile jsIsWhitespace).reverse)⟩

/-- Model of JavaScript `s.startsWith(p)`. -/
def jsStartsWith (s p : String) : Bool :=
  p.data.isPrefixOf s.data

/-- Model of JavaScript `s.split(sep)` for a one-character separator:
the list of (possibly empty) segments between occurrences of `sep`. -/
def jsSplitChar (sep : Char) (s : String) : List String :=
  (s.data.foldr
    (fun c acc =>
      match acc with
      | [] => [[c]]
      | seg :: rest => if c = sep then [] :: (seg :: rest) else (c :: seg) :: rest)
    [[]]).map (fun l => ⟨l⟩)

/-- Model of JavaScript string coercion (template-literal interpolation). -/
def jsToString : JSVal → String
  | .vNull => "null"
  | .vUndefined => "undefined"
  | .vNum n => toString n
  | .vStr s => s
  | .vBool b => if b then "true" else "false"
  | .vErr msg => "Error: " ++ msg
  | .vObj => "[object Object]"

/-- `jsToString` on an optional value (an absent key reads as `undefined`). -/
def jsToStringOpt : Option JSVal → String
  | none => "undefined"
  | some v => jsToString v

/-- JavaScript `ToNumber` coercion, `none` standing for `NaN`
(plain objects coerce through `NaN` here; the adapter only compares
banner dimensions this way). -/
def jsToNumber : Option JSVal → Option Int
  | none => none
  | some .vUndefined => none
  | some .vNull => some 0
  | some (.vNum n) => some n
  | some (.vBool b) => some (if b then 1 else 0)
  | some (.vStr s) => if jsTrim s = "" then some 0 else (jsTrim s).toInt?
  | some (.vErr _) => none
  | some .vObj => none

/-- JavaScript relational comparison `v >= 0` (false when `v` coerces to `NaN`,
which is how `undefined >= 0` evaluates). -/
def jsGE0 (v : Option JSVal) : Bool :=
  match jsToNumber v with
  | some n => n ≥ 0
  | none => false

/-! ### Constants of the module -/

def ADAPTER_VERSION : String := "2.0.0"

def BIDDER_CODE : String := "aps"

def AAX_ENDPOINT : String := "https://web.ads.aps.amazon-adsystem.com/e/pb/bid"

def DEFAULT_PREBID_CREATIVE_JS_URL : String :=
  "https://client.aps.amazon-adsystem.com/prebid-creative.js"

/-! ### Configuration

`config.readConfig` is external to the module; the keys the adapter reads
are collected in a record, each holding the raw JavaScript value the call
would return (`vUndefined` when the key is not configured). -/

structure Config where
  telemetry : JSVal
  accountID : JSVal
  debugURL : JSVal
  debugMode : JSVal
  renderMethod : JSVal
  creativeURL : JSVal
  deriving DecidableEq, Repr

/-! ### Account ID validation -/

/-- `isValidAccountID(accountID)` from the source: `null`/`undefined` are
rejected; any number is accepted; a string is accepted when it has content
after trimming; every other type is rejected. -/
def isValidAccountID : JSVal → Bool
  | .vNull => false
  | .vUndefined => false
  | .vNum _ => true
  | .vStr s => (jsTrim s).length > 0
  | _ => false

/-! ### Telemetry (`record` and the `window._aps` structure) -/

/-- The `data` argument of `record`: an object with optional `error` and
`analytics` keys. -/
structure EventData where
  error : Option JSVal
  analytics : Option JSVal
  deriving DecidableEq, Repr

/-- The `detail` of a recorded `CustomEvent`: the shallow-copied payload
plus the provenance fields added by `record`. -/
structure Detail where
  error : Option JSVal
  analytics : Option JSVal
  source : String
  libraryVersion : String
  deriving DecidableEq, Repr

/-- A recorded `CustomEvent`: its final (normalised) name and its detail. -/
structure Event where
  name : String
  detail : Detail
  deriving DecidableEq, Repr

/-- The per-account store kept under `window._aps`: an append-only event
queue and an auxiliary key-value store (created empty). -/
structure Account where
  queue : List Event
  store : List (String × JSVal)
  deriving DecidableEq, Repr

/-- `window._aps`: absent until first created, then a map from account
identifier to its `Account` store (insertion-ordered, as a JS `Map`). -/
abbrev ApsState := Option (List (JSVal × Account))

/-- `Map.prototype.has` / `get` on the `window._aps` map. -/
def apsFind : List (JSVal × Account) → JSVal → Option Account
  | [], _ => none
  | (k2, a) :: rest, k => if k2 = k then some a else apsFind rest k

/-- Append an event to the queue of the entry with the given key. -/
def apsPush : List (JSVal × Account) → JSVal → Event → List (JSVal × Account)
  | [], _, _ => []
  | (k2, a) :: rest, k, ev =>
    if k2 = k then (k2, { a with queue := a.queue ++ [ev] }) :: rest
    else (k2, a) :: apsPush rest k ev

/-- Build the `detail` object pushed by `record`: a shallow copy of the
payload, with `analytics` defaulted to an (empty) object unless an `error`
key is (truthily) present, plus the fixed provenance fields. -/
def mkDetail (data : Option EventData) : Detail :=
  let d := data.getD { error := none, analytics := none }
  let analytics :=
    if truthyOpt d.error then d.analytics
    else if truthyOpt d.analytics then d.analytics else some JSVal.vObj
  { error := d.error, analytics := analytics,
    source := "prebid-adapter", libraryVersion := ADAPTER_VERSION }

/-- `record(eventName, data)` from the source. Returns early when
`aps.telemetry` is configured strictly equal to `false`; normalises the
event name (namespacing and a `/didTrigger` terminal segment when fewer
than three segments); returns early when the configured account identifier
is falsy; otherwise lazily creates `window._aps` and the account entry and
pushes the event onto the account's queue. -/
def record (cfg : Config) (eventName : String) (data : Option EventData)
    (aps : ApsState) : ApsState :=
  if cfg.telemetry = JSVal.vBool false then aps
  else
    let prefixedEventName :=
      if jsStartsWith eventName "prebidAdapter/" then eventName
      else "prebidAdapter/" ++ eventName
    let parts := jsSplitChar (Char.ofNat 47) prefixedEventName
    let finalEventName :=
      if parts.length < 3 then prefixedEventName ++ "/didTrigger"
      else prefixedEventName
    if truthy cfg.accountID = false then aps
    else
      let m := aps.getD []
      let m :=
        if (apsFind m cfg.accountID).isSome then m
        else m ++ [(cfg.accountID, { queue := [], store := [] })]
      some (apsPush m cfg.accountID { name := finalEventName, detail := mkDetail data })

/-! ### The ORTB request model and the `converter.request` pre-hook

Objects are modelled with one `Option` field per key the hook reads or
writes, plus an `extra` association list standing for all other keys
(which the hook never touches). -/

structure Geo where
  lat : Option JSVal
  lon : Option JSVal
  extra : List (String × JSVal)
  deriving DecidableEq, Repr

structure Device where
  geo : Option Geo
  extra : List (String × JSVal)
  deriving DecidableEq, Repr

structure User where
  gender : Option JSVal
  yob : Option JSVal
  keywords : Option JSVal
  kwarry : Option JSVal
  customdata : Option JSVal
  geo : Option JSVal
  data : Option JSVal
  extra : List (String × JSVal)
  deriving DecidableEq, Repr

structure Ext where
  account : Option JSVal
  extra : List (String × JSVal)
  deriving DecidableEq, Repr

/-- One entry of `banner.format`. -/
structure FormatEntry where
  w : Option JSVal
  h : Option JSVal
  deriving DecidableEq, Repr

structure Banner where
  w : Option JSVal
  h : Option JSVal
  format : Option (List FormatEntry)
  extra : List (String × JSVal)
  deriving DecidableEq, Repr

/-- An impression; a `none` element of the request's `imp` array models a
`null`/`undefined` entry. -/
structure Imp where
  banner : Option Banner
  extra : List (String × JSVal)
  deriving DecidableEq, Repr

structure Request where
  device : Option Device
  user : Option User
  ext : Option Ext
  cur : Option (List String)
  imp : Option (List (Option Imp))
  extra : List (String × JSVal)
  deriving DecidableEq, Repr

/-- The JavaScript test `typeof v === 'number'` on an (optional) value. -/
def typeofNumber : Option JSVal → Bool
  | some (JSVal.vNum _) => true
  | _ => false

/-- The body of the `request.imp.forEach` callback for one impression
(`index` is the `forEach` index, used in error messages). A null entry is a
structural error; an impression without a banner is returned untouched;
when the banner's `w >= 0 && h >= 0` test fails and a non-empty `format`
array exists, `w`/`h` are backfilled from `format[0]` provided both are
numbers, a thrown validation error otherwise. -/
def processImp (index : Nat) (oimp : Option Imp) : Except JSVal Imp :=
  match oimp with
  | none =>
    Except.error (JSVal.vErr
      ("Impression at index " ++ toString index ++ " is null or undefined"))
  | some imp =>
    match imp.banner with
    | none => Except.ok imp
    | some banner =>
      let doesHWExist := jsGE0 banner.w && jsGE0 banner.h
      let doesFormatExist :=
        match banner.format with
        | some fs => fs.length > 0
        | none => false
      if !doesHWExist && doesFormatExist then
        match banner.format with
        | some (f0 :: _) =>
          if typeofNumber f0.w && typeofNumber f0.h then
            Except.ok { imp with banner := some ({ banner with w := f0.w, h := f0.h }) }
          else
            Except.error (JSVal.vErr
              ("Invalid banner format dimensions at impression " ++ toString index ++
                ": w=" ++ jsToStringOpt f0.w ++ ", h=" ++ jsToStringOpt f0.h))
        | _ => Except.ok imp
      else Except.ok imp

/-- `request.imp.forEach(...)` over the whole array, threading the index
and stopping at the first thrown error. -/
def processImps : Nat → List (Option Imp) → Except JSVal (List (Option Imp))
  | _, [] => Except.ok []
  | index, oimp :: rest =>
    match processImp index oimp with
    | Except.error e => Except.error e
    | Except.ok imp =>
      match processImps (index + 1) rest with
      | Except.error e => Except.error e
      | Except.ok rest2 => Except.ok (some imp :: rest2)

/-- The `request(buildRequest, imps, bidderRequest, context)` pre-hook of
the converter, applied to the request the generic `buildRequest` returned:
deletes `device.geo.lat` / `device.geo.lon` when a `device.geo` object is
present; deletes the sensitive user keys when a `user` object is present;
defaults `ext` and stores the configured account under `ext.account`;
defaults `cur` to `['USD']`; requires `imp` to be a proper array and
processes each impression, propagating any thrown error. -/
def converterRequest (cfg : Config) (request0 : Request) : Except JSVal Request :=
  let request1 :=
    match request0.device with
    | some d =>
      match d.geo with
      | some g =>
        { request0 with device := some ({ d with geo := some ({ g with lat := none, lon := none }) }) }
      | none => request0
    | none => request0
  let request2 :=
    match request1.user with
    | some u =>
      { request1 with user := some ({ u with gender := none, yob := none, keywords := none, kwarry := none, customdata := none, geo := none, data := none }) }
    | none => request1
  let request3 :=
    { request2 with ext := some ({ (request2.ext.getD ⟨none, []⟩) with account := some cfg.accountID }) }
  let request4 := { request3 with cur := some (request3.cur.getD ["USD"]) }
  match request4.imp with
  | none => Except.error (JSVal.vErr "Request must contain a valid impressions array")
  | some imps =>
    match processImps 0 imps with
    | Except.error e => Except.error e
    | Except.ok imps2 => Except.ok { request4 with imp := some imps2 }

/-! ### The `converter.bidResponse` post-hook -/

/-- A wire-format bid as the post-hook inspects it: the media-type code
`mtype`, the ad markup `adm`, and all other keys in `extra`. -/
structure WireBid where
  mtype : Option JSVal
  adm : Option JSVal
  extra : List (String × JSVal)
  deriving DecidableEq, Repr

/-- The normalized bid produced by the generic `buildBidResponse` and then
edited by the hooks (only the fields the module touches are modelled). -/
structure BidOut where
  mediaType : Option JSVal
  vastUrl : Option JSVal
  ad : Option JSVal
  seatBidId : Option String
  extra : List (String × JSVal)
  deriving DecidableEq, Repr

/-- The `VIDEO` constant from `mediaTypes.js` (the string `'video'`). -/
def VIDEO : JSVal := JSVal.vStr "video"

/-- The `BANNER` constant from `mediaTypes.js` (the string `'banner'`). -/
def BANNER : JSVal := JSVal.vStr "banner"

/-- The `bidResponse(buildBidResponse, bid, context)` post-hook: when the
wire bid's `mtype` is strictly equal to `2`, captures `adm` as a VAST URL
and deletes `adm` from the wire bid before the generic conversion; when
the converted bid's media type is `VIDEO`, assigns the captured value onto
its `vastUrl`. The generic `buildBidResponse` (library code outside this
module) is passed in as a function. -/
def converterBidResponse (buildBidResponse : WireBid → BidOut) (bid : WireBid) : BidOut :=
  let vastUrl : Option JSVal :=
    if bid.mtype = some (JSVal.vNum 2) then bid.adm else none
  let bid :=
    if bid.mtype = some (JSVal.vNum 2) then { bid with adm := none } else bid
  let bidResponse := buildBidResponse bid
  if bidResponse.mediaType = some VIDEO then { bidResponse with vastUrl := vastUrl }
  else bidResponse

/-! ### JSON serialization, base64 and the creative rendering script -/

/-- A JSON value (the shape of the raw HTTP response body). -/
inductive JSON where
  | jNull
  | jBool (b : Bool)
  | jNum (n : Int)
  | jStr (s : String)
  | jArr (elems : List JSON)
  | jObj (fields : List (String × JSON))

/-- Lower-case hexadecimal digit. -/
def hexDigit (n : Nat) : Char :=
  if n < 10 then Char.ofNat (48 + n) else Char.ofNat (87 + n)

/-- `JSON.stringify` escaping for one character of a string. -/
def jsonEscapeChar (c : Char) : String :=
  if c = Char.ofNat 34 then "\\\""
  else if c = Char.ofNat 92 then "\\\\"
  else if c = Char.ofNat 8 then "\\b"
  else if c = Char.ofNat 9 then "\\t"
  else if c = Char.ofNat 10 then "\\n"
  else if c = Char.ofNat 12 then "\\f"
  else if c = Char.ofNat 13 then "\\r"
  else if c.toNat < 32 then "\\u00" ++ ⟨[hexDigit (c.toNat / 16), hexDigit (c.toNat % 16)]⟩
  else ⟨[c]⟩

/-- `JSON.stringify` escaping for a whole string. -/
def jsonEscape (s : String) : String :=
  String.join (s.data.map jsonEscapeChar)

mutual

/-- `JSON.stringify` (no indentation, as the adapter calls it). -/
def jsonStringify : JSON → String
  | JSON.jNull => "null"
  | JSON.jBool true => "true"
  | JSON.jBool false => "false"
  | JSON.jNum n => toString n
  | JSON.jStr s => "\"" ++ jsonEscape s ++ "\""
  | JSON.jArr elems => "[" ++ jsonStringifyElems elems ++ "]"
  | JSON.jObj fields => "\x7b" ++ jsonStringifyFields fields ++ "\x7d"

/-- Comma-separated serialization of array elements. -/
def jsonStringifyElems : List JSON → String
  | [] => ""
  | [x] => jsonStringify x
  | x :: y :: rest => jsonStringify x ++ "," ++ jsonStringifyElems (y :: rest)

/-- Comma-separated serialization of object fields. -/
def jsonStringifyFields : List (String × JSON) → String
  | [] => ""
  | [(k, v)] => "\"" ++ jsonEscape k ++ "\":" ++ jsonStringify v
  | (k, v) :: y :: rest =>
    "\"" ++ jsonEscape k ++ "\":" ++ jsonStringify v ++ "," ++ jsonStringifyFields (y :: rest)

end

/-- The base64 alphabet used by `btoa`. -/
def base64Chars : List Char :=
  "ABCDEFGHIJKLMNOPQRSTUVWXYZabcdefghijklmnopqrstuvwxyz0123456789+/".data

/-- The base64 digit for a 6-bit value. -/
def b64char (n : Nat) : Char := base64Chars.getD n (Char.ofNat 65)

/-- Base64-encode a byte sequence (3 bytes to 4 digits, `=`-padded). -/
def base64EncodeBytes : List Nat → List Char
  | [] => []
  | [a] => [b64char (a / 4), b64char (a % 4 * 16), Char.ofNat 61, Char.ofNat 61]
  | [a, b] => [b64char (a / 4), b64char (a % 4 * 16 + b / 16), b64char (b % 16 * 4), Char.ofNat 61]
  | a :: b :: c :: rest =>
    b64char (a / 4) :: b64char (a % 4 * 16 + b / 16) :: b64char (b % 16 * 4 + c / 64) ::
      b64char (c % 64) :: base64EncodeBytes rest

/-- `window.btoa` on the string's code units (the adapter feeds it
`JSON.stringify` output; code units above 255 would make the browser
throw, which the model does not track). -/
def btoa (s : String) : String :=
  ⟨base64EncodeBytes (s.data.map Char.toNat)⟩

/-- `JSON.stringify(bid.seatBidId)` as interpolated into the template:
for a missing id `JSON.stringify` yields `undefined`, which the template
literal renders as the text `undefined`. -/
def stringifySeatBidId : Option String → String
  | none => "undefined"
  | some s => "\"" ++ jsonEscape s ++ "\""

/-- `config.readConfig('aps.creativeURL') || DEFAULT_PREBID_CREATIVE_JS_URL`. -/
def resolveCreativeURL (cfg : Config) : JSVal :=
  if truthy cfg.creativeURL then cfg.creativeURL
  else JSVal.vStr DEFAULT_PREBID_CREATIVE_JS_URL

/-- The inline rendering markup assigned to `bid.ad` for non-video bids:
a script tag loading the creative renderer followed by a script block that
pushes a `prebid/creative/render` event carrying the base64-encoded
response body and the seat-bid identifier. The template is reproduced
verbatim from the source (then `.trim()`-ed as there). -/
def creativeScript (creativeUrl accountID : JSVal) (aaxResponse seatBidIdJson : String) : String :=
  jsTrim ("<script src=\"" ++ jsToString creativeUrl ++ "\"></script>\n<script>\n  const accountID = \x27" ++ jsToString accountID ++ "\x27;\n  window._aps = window._aps || new Map();\n  if (!window._aps.has(accountID)) \x7b\n    window._aps.set(accountID, \x7b queue: [], store: new Map([[\x27listeners\x27, new Map()]]) \x7d);\n  \x7d\n  window._aps.get(accountID).queue.push(\n    new CustomEvent(\x27prebid/creative/render\x27, \x7b\n      detail: \x7b\n        aaxResponse: \x27" ++ aaxResponse ++ "\x27,\n        seatBidId: " ++ seatBidIdJson ++ "\n      \x7d\n    \x7d)\n  );\n</script>")

/-- The value returned by the generic `converter.fromORTB` (library code
outside this module): the list of normalized bids. -/
structure InterpretedResponse where
  bids : List BidOut
  deriving DecidableEq, Repr

/-- The `interpretedResponse.bids.forEach` body of `spec.interpretResponse`:
every non-video bid's `ad` is replaced by the inline creative script built
from the creative URL, the configured account, the base64-encoded JSON of
the raw response body, and the bid's seat-bid id. -/
def applyCreative (cfg : Config) (body : JSON) (bids : List BidOut) : List BidOut :=
  let accountID := cfg.accountID
  let creativeUrl := resolveCreativeURL cfg
  bids.map (fun bid =>
    if bid.mediaType ≠ some VIDEO then
      { bid with ad := some (JSVal.vStr (creativeScript creativeUrl accountID
          (btoa (jsonStringify body)) (stringifySeatBidId bid.seatBidId))) }
    else bid)

/-! ### The four framework-facing operations

Each operation records an entry telemetry event, runs its body inside a
`try`, and on a thrown error records an `<operation>/didError` event
carrying the error and falls through, returning `undefined` (`none`).
`tryOp` is that shared boundary. -/

/-- The `record(op); try ... catch (err) handling` boundary shared by
`isBidRequestValid`, `buildRequests`, `interpretResponse` and
`getUserSyncs`. -/
def tryOp {α : Type} (cfg : Config) (opName : String) (body : Except JSVal α)
    (aps : ApsState) : Option α × ApsState :=
  let aps1 := record cfg opName none aps
  match body with
  | Except.ok a => (some a, aps1)
  | Except.error e =>
    (none, record cfg (opName ++ "/didError") (some { error := some e, analytics := none }) aps1)

/-- The endpoint computation of `spec.buildRequests`: the configured debug
URL (kept even when falsy, via `??`) or the production endpoint; when debug
mode is truthy, appends the debug query (the `fif` variant for that render
method), throwing if the endpoint is not a string (`.includes` on a
non-string). -/
def resolveEndpoint (cfg : Config) : Except JSVal JSVal :=
  let endpoint :=
    match cfg.debugURL with
    | JSVal.vUndefined => JSVal.vStr AAX_ENDPOINT
    | JSVal.vNull => JSVal.vStr AAX_ENDPOINT
    | v => v
  if truthy cfg.debugMode then
    match endpoint with
    | JSVal.vStr s =>
      let debugQueryChar := if s.data.contains (Char.ofNat 63) then "&" else "?"
      if cfg.renderMethod = JSVal.vStr "fif" then
        Except.ok (JSVal.vStr (s ++ debugQueryChar ++ "amzn_debug_mode=fif&amzn_debug_mode=1"))
      else Except.ok (JSVal.vStr (s ++ debugQueryChar ++ "amzn_debug_mode=1"))
    | _ => Except.error (JSVal.vErr "endpoint.includes is not a function")
  else Except.ok endpoint

structure ReqOptions where
  contentType : String
  deriving DecidableEq, Repr

/-- The `{method, url, data, options}` descriptor returned by `buildRequests`. -/
structure ServerRequest where
  method : String
  url : JSVal
  data : Request
  options : ReqOptions
  deriving DecidableEq, Repr

/-- `spec.isBidRequestValid`: true exactly when the configured account
identifier passes `isValidAccountID` (the invalid case logs a warning and
returns `false`; nothing in the body can throw in this model). -/
def isBidRequestValid (cfg : Config) (aps : ApsState) : Option Bool × ApsState :=
  tryOp cfg "isBidRequestValid"
    (if isValidAccountID cfg.accountID = false then Except.ok false else Except.ok true) aps

/-- `spec.buildRequests`: resolves the endpoint, converts the pending bid
requests through the generic `buildRequest` (supplied as the
already-computed `built` value, library code outside this module) and the
`converterRequest` pre-hook, and wraps the result in a POST descriptor;
all inside the `tryOp` boundary. -/
def buildRequests (cfg : Config) (built : Except JSVal Request) (aps : ApsState) :
    Option ServerRequest × ApsState :=
  tryOp cfg "buildRequests"
    (match resolveEndpoint cfg with
     | Except.error e => Except.error e
     | Except.ok endpoint =>
       match built with
       | Except.error e => Except.error e
       | Except.ok request0 =>
         match converterRequest cfg request0 with
         | Except.error e => Except.error e
         | Except.ok data =>
           Except.ok { method := "POST", url := endpoint, data := data,
                       options := { contentType := "application/json" } }) aps

/-- `spec.interpretResponse`: converts the wire response through the
generic `fromORTB` (supplied as a parameter, library code outside this
module) and rewrites every non-video bid's markup; all inside the `tryOp`
boundary. -/
def interpretResponse (cfg : Config) (fromORTB : Except JSVal InterpretedResponse)
    (body : JSON) (aps : ApsState) : Option (List BidOut) × ApsState :=
  tryOp cfg "interpretResponse"
    (match fromORTB with
     | Except.error e => Except.error e
     | Except.ok interpreted => Except.ok (applyCreative cfg body interpreted.bids)) aps

/-- One user-sync descriptor from a response's `ext.userSyncs`. -/
structure Sync where
  type : Option JSVal
  url : Option JSVal
  extra : List (String × JSVal)
  deriving DecidableEq, Repr

structure RespExt where
  userSyncs : Option (List Sync)
  deriving DecidableEq, Repr

structure RespBody where
  ext : Option RespExt
  deriving DecidableEq, Repr

structure ServerResponse where
  body : Option RespBody
  deriving DecidableEq, Repr

/-- The iframe/pixel capability flags of the host's sync options. -/
structure SyncOptions where
  iframeEnabled : Bool
  pixelEnabled : Bool
  deriving DecidableEq, Repr

/-- `res?.body?.ext?.userSyncs ?? []` for one (possibly null) response. -/
def extractUserSyncs : Option ServerResponse → List Sync
  | none => []
  | some r =>
    match r.body with
    | none => []
    | some b =>
      match b.ext with
      | none => []
      | some e => e.userSyncs.getD []

/-- `spec.getUserSyncs`: flattens each response's `ext.userSyncs` and keeps
an entry exactly when its type is `'iframe'` and iframe syncing is enabled
or its type is `'image'` and pixel syncing is enabled; a null/undefined
response list makes `.flatMap` throw inside the `tryOp` boundary. -/
def getUserSyncs (cfg : Config) (syncOptions : SyncOptions)
    (serverResponses : Option (List (Option ServerResponse))) (aps : ApsState) :
    Option (List Sync) × ApsState :=
  tryOp cfg "getUserSyncs"
    (match serverResponses with
     | none =>
       Except.error (JSVal.vErr "Cannot read properties of undefined (reading \x27flatMap\x27)")
     | some rs =>
       let userSyncs := rs.flatMap extractUserSyncs
       Except.ok (userSyncs.filter (fun s =>
         (s.type = some (JSVal.vStr "iframe") && syncOptions.iframeEnabled) ||
         (s.type = some (JSVal.vStr "image") && syncOptions.pixelEnabled)))) aps

/-! ### Concrete inputs used by witnesses and counterexamples -/

/-- A configuration with no key configured (every read yields `undefined`). -/
def cfgU : Config :=
  ⟨JSVal.vUndefined, JSVal.vUndefined, JSVal.vUndefined, JSVal.vUndefined,
    JSVal.vUndefined, JSVal.vUndefined⟩

def geoC2 : Geo := ⟨some (JSVal.vNum 51), some (JSVal.vNum 7), [("country", JSVal.vStr "DE")]⟩

def userC2 : User :=
  ⟨some (JSVal.vStr "F"), some (JSVal.vNum 1990), some (JSVal.vStr "kw"),
    some (JSVal.vStr "kw2"), some (JSVal.vStr "cd"), some JSVal.vObj, some JSVal.vObj,
    [("id", JSVal.vStr "u1")]⟩

def reqC2 : Request := ⟨some ⟨some geoC2, []⟩, some userC2, none, none, some [], []⟩

def outC2 : Request :=
  ⟨some ⟨some ⟨none, none, [("country", JSVal.vStr "DE")]⟩, []⟩,
    some ⟨none, none, none, none, none, none, none, [("id", JSVal.vStr "u1")]⟩,
    some ⟨some JSVal.vUndefined, []⟩, some ["USD"], some [], []⟩

def bannerC1 : Banner := ⟨none, none, none, []⟩

def impC1 : Imp := ⟨some bannerC1, []⟩

def reqC1 : Request := ⟨none, none, none, none, some [some impC1], []⟩

def outC1 : Request :=
  ⟨none, none, some ⟨some JSVal.vUndefined, []⟩, some ["USD"], some [some impC1], []⟩

def bannerC1w : Banner := ⟨none, none, some [], []⟩

def impC1w : Imp := ⟨some bannerC1w, []⟩

def bannerC4 : Banner :=
  ⟨some (JSVal.vNum (-1)), some (JSVal.vNum (-1)),
    some [⟨some (JSVal.vNum 300), some (JSVal.vNum 250)⟩], []⟩

def impC4 : Imp := ⟨some bannerC4, []⟩

def impC4res : Imp :=
  ⟨some ⟨some (JSVal.vNum 300), some (JSVal.vNum 250),
    some [⟨some (JSVal.vNum 300), some (JSVal.vNum 250)⟩], []⟩, []⟩

def reqC4 : Request := ⟨none, none, none, none, some [some impC4], []⟩

def outC4 : Request :=
  ⟨none, none, some ⟨some JSVal.vUndefined, []⟩, some ["USD"], some [some impC4res], []⟩

def bannerC4w : Banner :=
  ⟨none, none, some [⟨some (JSVal.vNum 300), some (JSVal.vNum 250)⟩], []⟩

def impC4w : Imp := ⟨some bannerC4w, []⟩

/-- A configuration with telemetry explicitly disabled. -/
def cfgTelemetryOff : Config :=
  ⟨JSVal.vBool false, JSVal.vStr "acct", JSVal.vUndefined, JSVal.vUndefined,
    JSVal.vUndefined, JSVal.vUndefined⟩

/-- A non-empty pre-existing `window._aps` state. -/
def apsW : ApsState := some [(JSVal.vStr "acct", ⟨[], []⟩)]

/-- A configuration whose account identifier is the number `0`. -/
def cfgZero : Config :=
  ⟨JSVal.vUndefined, JSVal.vNum 0, JSVal.vUndefined, JSVal.vUndefined,
    JSVal.vUndefined, JSVal.vUndefined⟩

def buildBidResponseW : WireBid → BidOut := fun _ => ⟨some VIDEO, none, none, some "sb1", []⟩

def wireBidW : WireBid := ⟨some (JSVal.vNum 2), some (JSVal.vStr "<VAST>x</VAST>"), []⟩

/-- A configuration with an account and a configured creative URL. -/
def cfgC6 : Config :=
  ⟨JSVal.vUndefined, JSVal.vStr "acct", JSVal.vUndefined, JSVal.vUndefined,
    JSVal.vUndefined, JSVal.vStr "https://x/c.js"⟩

def bodyC6 : JSON := JSON.jObj [("id", JSON.jStr "r1")]

def bidC6 : BidOut := ⟨some BANNER, none, none, some "sb", []⟩

def bidC6out : BidOut :=
  ⟨some BANNER, none,
    some (JSVal.vStr (creativeScript (resolveCreativeURL cfgC6) cfgC6.accountID
      (btoa (jsonStringify bodyC6)) (stringifySeatBidId (some "sb")))),
    some "sb", []⟩

def irC6 : InterpretedResponse := ⟨[bidC6]⟩

/-- A request without an `imp` array (the pre-hook throws on it). -/
def reqC7 : Request := ⟨none, none, none, none, none, []⟩

def eC7 : JSVal := JSVal.vErr "Request must contain a valid impressions array"

def syncIframe : Sync := ⟨some (JSVal.vStr "iframe"), some (JSVal.vStr "https://s/i"), []⟩

def syncImage : Sync := ⟨some (JSVal.vStr "image"), some (JSVal.vStr "https://s/p"), []⟩

def respC8 : ServerResponse := ⟨some ⟨some ⟨some [syncIframe, syncImage]⟩⟩⟩

def optsIframe : SyncOptions := ⟨true, false⟩

def optsImage : SyncOptions := ⟨false, true⟩

/-! ### Theorems -/

/-- Claim C2: for every AuctionRequest produced by the request pre-hook,
a request that had a `device.geo` object yields a result whose
`device.geo` carries no `lat` and no `lon` key, and a request that had a
`user` object yields a result whose `user` carries none of the keys
`gender`, `yob`, `keywords`, `kwarry`, `customdata`, `geo`, `data`. -/
theorem claim_C2 (cfg : Config) (req out : Request)
    (h : converterRequest cfg req = Except.ok out) :
    (∀ d g, req.device = some d → d.geo = some g →
      ∃ d2 g2, out.device = some d2 ∧ d2.geo = some g2 ∧ g2.lat = none ∧ g2.lon = none) ∧
    (∀ u, req.user = some u →
      ∃ u2, out.user = some u2 ∧ u2.gender = none ∧ u2.yob = none ∧ u2.keywords = none ∧
        u2.kwarry = none ∧ u2.customdata = none ∧ u2.geo = none ∧ u2.data = none) := by
  obtain ⟨dev, usr, ext0, cur0, imp0, extra0⟩ := req
  rcases dev with _ | ⟨_ | g, dex⟩ <;> rcases usr with _ | u <;>
    rcases imp0 with _ | imps <;>
    simp only [converterRequest] at h <;>
    first
      | exact Except.noConfusion h
      | (split at h <;>
          first
            | exact Except.noConfusion h
            | (injection h with h; subst h;
               constructor <;> intros <;> (try simp_all) <;> (try subst_vars) <;> simp_all))

/-- Witness for C2 at a request carrying precise geo coordinates and all
sensitive user fields. -/
theorem claim_C2_witness :
    converterRequest cfgU reqC2 = Except.ok outC2 ∧
    (∃ d2 g2, outC2.device = some d2 ∧ d2.geo = some g2 ∧ g2.lat = none ∧ g2.lon = none) ∧
    (∃ u2, outC2.user = some u2 ∧ u2.gender = none ∧ u2.yob = none ∧ u2.keywords = none ∧
      u2.kwarry = none ∧ u2.customdata = none ∧ u2.geo = none ∧ u2.data = none) :=
  ⟨rfl, (claim_C2 cfgU reqC2 outC2 rfl).1 ⟨some geoC2, []⟩ geoC2 rfl rfl,
    (claim_C2 cfgU reqC2 outC2 rfl).2 userC2 rfl⟩

/-- Claim C1 counterexample: an impression whose banner lacks both `w` and
`h` and has no format list does NOT make the request build throw; the
build succeeds and emits the impression unchanged, without dimensions. -/
theorem claim_C1_counterexample :
    bannerC1.w = none ∧ bannerC1.h = none ∧ bannerC1.format = none ∧
    impC1.banner = some bannerC1 ∧ reqC1.imp = some [some impC1] ∧
    converterRequest cfgU reqC1 = Except.ok outC1 ∧
    outC1.imp = some [some impC1] :=
  ⟨rfl, rfl, rfl, rfl, rfl, rfl, rfl⟩

/-- Claim C1 (amended): for an impression whose banner lacks both width
and height and whose banner has no non-empty format list, the per-impression
step of the request build does not throw: it returns the impression
unchanged, so the impression is emitted without dimensions. -/
theorem claim_C1_amended (index : Nat) (imp : Imp) (banner : Banner)
    (hb : imp.banner = some banner) (hw : banner.w = none) (hh : banner.h = none)
    (hf : banner.format = none ∨ banner.format = some []) :
    processImp index (some imp) = Except.ok imp := by
  rcases hf with hf | hf <;> simp [processImp, hb, hw, hh, hf, jsGE0, jsToNumber]

/-- Witness for the amended C1 at an impression carrying an empty format array. -/
theorem claim_C1_witness :
    impC1w.banner = some bannerC1w ∧ bannerC1w.w = none ∧ bannerC1w.h = none ∧
    bannerC1w.format = some [] ∧
    processImp 3 (some impC1w) = Except.ok impC1w :=
  ⟨rfl, rfl, rfl, rfl, claim_C1_amended 3 impC1w bannerC1w rfl rfl rfl (Or.inr rfl)⟩

/-- Claim C4 counterexample: an impression whose banner width and height
are both present (here as the number `-1`) is NOT kept unchanged when a
non-empty format list exists: the `w >= 0 && h >= 0` presence test fails,
so the pre-hook overwrites both dimensions from the first format entry. -/
theorem claim_C4_counterexample :
    bannerC4.w = some (JSVal.vNum (-1)) ∧ bannerC4.h = some (JSVal.vNum (-1)) ∧
    impC4.banner = some bannerC4 ∧ reqC4.imp = some [some impC4] ∧
    converterRequest cfgU reqC4 = Except.ok outC4 ∧
    outC4.imp = some [some impC4res] ∧ impC4res ≠ impC4 :=
  ⟨rfl, rfl, rfl, rfl, rfl, rfl, by decide⟩

/-- Claim C4 (amended): for an impression whose banner lacks both width and
height and has a non-empty format list, the pre-hook sets `banner.w` and
`banner.h` to the first format entry's `w` and `h` when both are numbers,
and throws a validation error when either is not a number; an impression
whose banner width and height both pass the code's `>= 0` presence test
(in particular, both present as nonnegative numbers), and an impression
without a banner component, keep their banner fields unchanged. -/
theorem claim_C4_amended :
    (∀ (index : Nat) (imp : Imp) (banner : Banner) (f0 : FormatEntry)
        (rest : List FormatEntry) (w h : Int),
      imp.banner = some banner → banner.w = none → banner.h = none →
      banner.format = some (f0 :: rest) →
      f0.w = some (JSVal.vNum w) → f0.h = some (JSVal.vNum h) →
      processImp index (some imp) =
        Except.ok { imp with banner := some ({ banner with w := some (JSVal.vNum w), h := some (JSVal.vNum h) }) }) ∧
    (∀ (index : Nat) (imp : Imp) (banner : Banner) (f0 : FormatEntry)
        (rest : List FormatEntry),
      imp.banner = some banner → banner.w = none → banner.h = none →
      banner.format = some (f0 :: rest) →
      (typeofNumber f0.w = false ∨ typeofNumber f0.h = false) →
      ∃ msg, processImp index (some imp) = Except.error (JSVal.vErr msg)) ∧
    (∀ (index : Nat) (imp : Imp) (banner : Banner),
      imp.banner = some banner → jsGE0 banner.w = true → jsGE0 banner.h = true →
      processImp index (some imp) = Except.ok imp) ∧
    (∀ (index : Nat) (imp : Imp),
      imp.banner = none → processImp index (some imp) = Except.ok imp) := by
  refine ⟨?_, ?_, ?_, ?_⟩
  · intro index imp banner f0 rest w h hb hw hh hfmt hfw hfh
    simp [processImp, hb, hw, hh, hfmt, hfw, hfh, jsGE0, jsToNumber, typeofNumber]
  · intro index imp banner f0 rest hb hw hh hfmt hne
    rcases hne with hne | hne <;>
      simp [processImp, hb, hw, hh, hfmt, hne, jsGE0, jsToNumber]
  · intro index imp banner hb hge1 hge2
    simp [processImp, hb, hge1, hge2]
  · intro index imp hb
    simp [processImp, hb]

/-- Witness for the amended C4: the format entry `{w: 300, h: 250}` is
backfilled into a banner lacking both dimensions. -/
theorem claim_C4_witness :
    impC4w.banner = some bannerC4w ∧ bannerC4w.w = none ∧ bannerC4w.h = none ∧
    bannerC4w.format = some [⟨some (JSVal.vNum 300), some (JSVal.vNum 250)⟩] ∧
    processImp 0 (some impC4w) =
      Except.ok { impC4w with banner := some ({ bannerC4w with w := some (JSVal.vNum 300), h := some (JSVal.vNum 250) }) } :=
  ⟨rfl, rfl, rfl, rfl,
    claim_C4_amended.1 0 impC4w bannerC4w ⟨some (JSVal.vNum 300), some (JSVal.vNum 250)⟩ []
      300 250 rfl rfl rfl rfl rfl rfl⟩

/-- Claim C3: the validation gate accepts exactly the non-null values that
are numbers (any number, zero included) or strings with non-whitespace
content after trimming; `null`, `undefined`, empty or whitespace-only
strings, and values of any other type are rejected. -/
theorem claim_C3 (v : JSVal) :
    isValidAccountID v = true ↔
      ((∃ n, v = JSVal.vNum n) ∨ (∃ s, v = JSVal.vStr s ∧ (jsTrim s).length > 0)) := by
  cases v <;> simp [isValidAccountID]

/-- Claim C9: when telemetry is configured off, or no account identifier is
configured (the read yields `undefined`, or `null`), `record` leaves the
global `window._aps` structure exactly as it was: nothing is created and
no queue is appended to. -/
theorem claim_C9 (cfg : Config) (eventName : String) (data : Option EventData)
    (aps : ApsState)
    (h : cfg.telemetry = JSVal.vBool false ∨ cfg.accountID = JSVal.vUndefined ∨
      cfg.accountID = JSVal.vNull) :
    record cfg eventName data aps = aps := by
  rcases h with h | h | h
  · simp [record, h]
  · by_cases ht : cfg.telemetry = JSVal.vBool false <;> simp [record, ht, h, truthy]
  · by_cases ht : cfg.telemetry = JSVal.vBool false <;> simp [record, ht, h, truthy]

/-- Witness for C9: with telemetry disabled, a `record` call leaves a
non-empty pre-existing state untouched. -/
theorem claim_C9_witness :
    (cfgTelemetryOff.telemetry = JSVal.vBool false ∨
      cfgTelemetryOff.accountID = JSVal.vUndefined ∨
      cfgTelemetryOff.accountID = JSVal.vNull) ∧
    record cfgTelemetryOff "isBidRequestValid" none apsW = apsW :=
  ⟨Or.inl rfl, claim_C9 cfgTelemetryOff "isBidRequestValid" none apsW (Or.inl rfl)⟩

/-- Claim C10: the account identifier `0` passes the validation gate, yet
every `record` call with account `0` returns without touching the global
event structure, because the account-presence test in `record` uses
JavaScript truthiness and `0` is falsy. -/
theorem claim_C10 (cfg : Config) (h : cfg.accountID = JSVal.vNum 0) :
    isValidAccountID cfg.accountID = true ∧
    ∀ (eventName : String) (data : Option EventData) (aps : ApsState),
      record cfg eventName data aps = aps := by
  refine ⟨by simp [h, isValidAccountID], ?_⟩
  intro eventName data aps
  by_cases ht : cfg.telemetry = JSVal.vBool false <;> simp [record, ht, h, truthy]

/-- Witness for C10 at account ID `0`. -/
theorem claim_C10_witness :
    cfgZero.accountID = JSVal.vNum 0 ∧
    isValidAccountID cfgZero.accountID = true ∧
    record cfgZero "onBidWon" none apsW = apsW :=
  ⟨rfl, (claim_C10 cfgZero rfl).1, (claim_C10 cfgZero rfl).2 "onBidWon" none apsW⟩

/-- Witness for C3: the number 0 is accepted and a whitespace-only string
is rejected. -/
theorem claim_C3_witness :
    isValidAccountID (JSVal.vNum 0) = true ∧ isValidAccountID (JSVal.vStr " ") = false :=
  ⟨(claim_C3 (JSVal.vNum 0)).mpr (Or.inl ⟨0, rfl⟩), by decide⟩

/-- Claim C5: for every wire bid whose `mtype` equals the video sentinel 2,
the post-hook captures the bid's `adm`, hands the generic conversion the
wire bid with `adm` deleted, and (the generic converter mapping such bids
to the video media type, per the converter library's contract) the
resulting bid is exactly the converted bid with `vastUrl` set to the
captured `adm` value. -/
theorem claim_C5 (buildBidResponse : WireBid → BidOut) (bid : WireBid)
    (hm : bid.mtype = some (JSVal.vNum 2))
    (hv : (buildBidResponse { bid with adm := none }).mediaType = some VIDEO) :
    converterBidResponse buildBidResponse bid =
      { (buildBidResponse { bid with adm := none }) with vastUrl := bid.adm } := by
  obtain ⟨mt, adm0, ex⟩ := bid
  have hm2 : mt = some (JSVal.vNum 2) := hm
  subst hm2
  simp_all [converterBidResponse]

/-- Witness for C5 at a concrete VAST wire bid and a converter mapping it
to the video media type. -/
theorem claim_C5_witness :
    wireBidW.mtype = some (JSVal.vNum 2) ∧
    (buildBidResponseW { wireBidW with adm := none }).mediaType = some VIDEO ∧
    converterBidResponse buildBidResponseW wireBidW =
      { (buildBidResponseW { wireBidW with adm := none }) with vastUrl := wireBidW.adm } ∧
    (converterBidResponse buildBidResponseW wireBidW).vastUrl =
      some (JSVal.vStr "<VAST>x</VAST>") :=
  ⟨rfl, rfl, claim_C5 buildBidResponseW wireBidW rfl rfl, rfl⟩

/-- Claim C6: every non-video bid returned by the response interpreter has
as its ad markup exactly the inline creative script: one script tag
loading the configured (or default) creative renderer URL, whose embedded
`aaxResponse` payload is the base64 encoding of the exact JSON
serialization of the raw response body, together with the bid's seat-bid
identifier. -/
theorem claim_C6 (cfg : Config) (body : JSON) (interpreted : InterpretedResponse)
    (aps : ApsState) (bids : List BidOut) (bid : BidOut)
    (hres : (interpretResponse cfg (Except.ok interpreted) body aps).1 = some bids)
    (hmem : bid ∈ bids) (hnv : bid.mediaType ≠ some VIDEO) :
    bid.ad = some (JSVal.vStr (creativeScript (resolveCreativeURL cfg) cfg.accountID
      (btoa (jsonStringify body)) (stringifySeatBidId bid.seatBidId))) := by
  have hbids : bids = applyCreative cfg body interpreted.bids := by
    simpa [interpretResponse, tryOp] using hres.symm
  subst hbids
  simp only [applyCreative] at hmem
  obtain ⟨b0, hb0, hfb⟩ := List.mem_map.mp hmem
  by_cases hv : b0.mediaType = some VIDEO
  · rw [← hfb] at hnv
    simp [hv] at hnv
  · rw [← hfb]
    simp [hv]

/-- Witness for C6 at a one-bid banner response with a configured creative
URL. -/
theorem claim_C6_witness :
    (interpretResponse cfgC6 (Except.ok irC6) bodyC6 none).1 = some [bidC6out] ∧
    bidC6out.mediaType ≠ some VIDEO ∧
    bidC6out.ad = some (JSVal.vStr (creativeScript (resolveCreativeURL cfgC6) cfgC6.accountID
      (btoa (jsonStringify bodyC6)) (stringifySeatBidId bidC6out.seatBidId))) :=
  ⟨rfl, by decide, claim_C6 cfgC6 bodyC6 irC6 none [bidC6out] bidC6out rfl
    (List.mem_singleton.mpr rfl) (by decide)⟩

/-- Claim C7: any exception raised inside the four framework-facing
operations is caught at the operation's shared boundary `tryOp`, recorded
via `record` as an `<operation>/didError` telemetry event carrying the
error, and swallowed: the operation returns `none` (JavaScript
`undefined`) and never propagates the exception. Stated for the shared
boundary itself and instantiated for `buildRequests` (whose pre-hook can
throw), `interpretResponse` (whose generic conversion can throw) and
`getUserSyncs` (where a missing response list makes `.flatMap` throw). -/
theorem claim_C7 (cfg : Config) (aps : ApsState) (e : JSVal) :
    (∀ opName : String,
      tryOp (α := Unit) cfg opName (Except.error e) aps =
        (none, record cfg (opName ++ "/didError")
          (some { error := some e, analytics := none }) (record cfg opName none aps))) ∧
    (∀ (endpoint : JSVal) (req : Request),
      resolveEndpoint cfg = Except.ok endpoint →
      converterRequest cfg req = Except.error e →
      buildRequests cfg (Except.ok req) aps =
        (none, record cfg "buildRequests/didError"
          (some { error := some e, analytics := none }) (record cfg "buildRequests" none aps))) ∧
    (∀ body : JSON,
      interpretResponse cfg (Except.error e) body aps =
        (none, record cfg "interpretResponse/didError"
          (some { error := some e, analytics := none }) (record cfg "interpretResponse" none aps))) ∧
    (∀ syncOptions : SyncOptions,
      getUserSyncs cfg syncOptions none aps =
        (none, record cfg "getUserSyncs/didError"
          (some { error := some (JSVal.vErr "Cannot read properties of undefined (reading \x27flatMap\x27)"), analytics := none })
          (record cfg "getUserSyncs" none aps))) := by
  refine ⟨fun opName => rfl, ?_, fun body => rfl, fun syncOptions => rfl⟩
  intro endpoint req h1 h2
  simp [buildRequests, tryOp, h1, h2]

/-- Witness for C7: a request without an `imp` array makes the pre-hook
throw inside `buildRequests`; the operation returns `none` and records the
error event. -/
theorem claim_C7_witness :
    resolveEndpoint cfgU = Except.ok (JSVal.vStr AAX_ENDPOINT) ∧
    converterRequest cfgU reqC7 = Except.error eC7 ∧
    buildRequests cfgU (Except.ok reqC7) none =
      (none, record cfgU "buildRequests/didError"
        (some { error := some eC7, analytics := none }) (record cfgU "buildRequests" none none)) :=
  ⟨rfl, rfl, (claim_C7 cfgU none eC7).2.1 (JSVal.vStr AAX_ENDPOINT) reqC7 rfl rfl⟩

/-- Claim C8: for every response list and sync options, `getUserSyncs`
returns exactly the entries of the flattened per-response `ext.userSyncs`
lists (absent lists treated as empty) whose type is `'iframe'` when iframe
syncing is enabled or `'image'` when pixel syncing is enabled. -/
theorem claim_C8 (cfg : Config) (syncOptions : SyncOptions)
    (rs : List (Option ServerResponse)) (aps : ApsState) :
    ∃ out, (getUserSyncs cfg syncOptions (some rs) aps).1 = some out ∧
      out = (rs.flatMap extractUserSyncs).filter (fun s =>
        (s.type = some (JSVal.vStr "iframe") && syncOptions.iframeEnabled) ||
        (s.type = some (JSVal.vStr "image") && syncOptions.pixelEnabled)) ∧
      ∀ s, s ∈ out ↔ s ∈ rs.flatMap extractUserSyncs ∧
        ((s.type = some (JSVal.vStr "iframe") ∧ syncOptions.iframeEnabled = true) ∨
         (s.type = some (JSVal.vStr "image") ∧ syncOptions.pixelEnabled = true)) := by
  refine ⟨_, ?_, rfl, ?_⟩
  · simp [getUserSyncs, tryOp]
  · intro s
    rw [List.mem_filter]
    simp

/-- Witness for C8: with iframe syncing enabled and pixel syncing disabled
only the iframe entry survives, and vice versa. -/
theorem claim_C8_witness :
    (getUserSyncs cfgU optsIframe (some [some respC8]) none).1 = some [syncIframe] ∧
    (getUserSyncs cfgU optsImage (some [some respC8]) none).1 = some [syncImage] ∧
    ∃ out, (getUserSyncs cfgU optsIframe (some [some respC8]) none).1 = some out ∧
      out = ([some respC8].flatMap extractUserSyncs).filter (fun s =>
        (s.type = some (JSVal.vStr "iframe") && optsIframe.iframeEnabled) ||
        (s.type = some (JSVal.vStr "image") && optsIframe.pixelEnabled)) ∧
      ∀ s, s ∈ out ↔ s ∈ [some respC8].flatMap extractUserSyncs ∧
        ((s.type = some (JSVal.vStr "iframe") ∧ optsIframe.iframeEnabled = true) ∨
         (s.type = some (JSVal.vStr "image") ∧ optsIframe.pixelEnabled = true)) :=
  ⟨rfl, rfl, claim_C8 cfgU optsIframe [some respC8] none⟩

end Aps
